import Mathlib

/-!
Verification of the git-worktree extension worktree-watching core.

The embedding below follows the TypeScript sources:
  * src/src/repo.ts      : parseGitdirFile, parseWorktreeHEADReadable,
                           parseWorktreeInfoDir, class Repo (constructor,
                           handleUpdateWorktreeInfo, onDidDelete handler,
                           initial load)
  * src/src/util.ts      : uriJoinPath (path.posix.join)
  * src/unnamed/part_000 : trackRepo (latest revision, keyed by the
                           trackedRepos list)
  * src/unnamed/part_001 : findRepo (latest revision)
  * src/src/execute.ts   : execute (promise wrapper around cp.execFile)

JavaScript regular expressions are embedded by their concrete matching
semantics on the given pattern (the dot character class excludes line
terminators; character classes such as a negated slash class do not).
-/

/-- Model of vscode.Uri restricted to the fields the sources consult:
`scheme` and `path`.  `uriToString` models `Uri.toString` (and
`toString(true)`, which only differs in percent-encoding, irrelevant here
because the model never encodes). -/
structure Uri where
  scheme : String
  path : String
deriving DecidableEq

def uriToString (u : Uri) : String :=
  u.scheme ++ "://" ++ u.path

/-- JavaScript line terminators, excluded by the `.` regex class. -/
def notLineTerm (c : Char) : Bool :=
  !(c == '\n' || c == '\r' || c.val == 0x2028 || c.val == 0x2029)

/-- JavaScript whitespace (the set matched by the regex class backslash-s
and by String.prototype.trim). -/
def isJsWhitespace (c : Char) : Bool :=
  c == ' ' || c == '\t' || c == '\n' || c == '\r' || c == '\x0b' || c == '\x0c' ||
  c.val == 0xa0 || c.val == 0x1680 || (0x2000 ≤ c.val && c.val ≤ 0x200a) ||
  c.val == 0x2028 || c.val == 0x2029 || c.val == 0x202f || c.val == 0x205f ||
  c.val == 0x3000 || c.val == 0xfeff

/-- JavaScript String.prototype.trim. -/
def jsTrim (s : String) : String :=
  String.mk ((((s.toList.dropWhile isJsWhitespace).reverse).dropWhile isJsWhitespace).reverse)

def startsWithChars : List Char → List Char → Bool
  | [], _ => true
  | _ :: _, [] => false
  | p :: ps, c :: cs => p == c && startsWithChars ps cs

def endsWithChars (suffix cs : List Char) : Bool :=
  startsWithChars suffix.reverse cs.reverse

/-- Splitting a character list at every slash, as String.splitOn does. -/
def splitOnSlash : List Char → List (List Char)
  | [] => [[]]
  | c :: cs =>
      let r := splitOnSlash cs
      if c == '/' then [] :: r
      else
        match r with
        | [] => [[c]]
        | h :: t => (c :: h) :: t

def joinWith (sep : String) : List String → String
  | [] => ""
  | [s] => s
  | s :: rest => s ++ sep ++ joinWith sep rest

/-- The text-level part of parseGitdirFile (src/src/repo.ts lines 13-20):
the regex checks that the whole text is a line `<path>/.git` followed by
one newline, where `<path>` is nonempty and free of line terminators
(a greedy dot group), and captures `<path>`. -/
def parseGitdirText (text : String) : Option String :=
  let cs := text.toList
  if endsWithChars "/.git\n".toList cs then
    let p := cs.take (cs.length - 6)
    if !p.isEmpty && p.all notLineTerm then some (String.mk p) else none
  else
    none

/-- Matches the tail of the HEAD regex after `refs/`: a nonempty group of
non-slash characters, a slash, then a greedy nonempty dot group followed by
optional whitespace up to the end of the text. -/
def headCaptureFrom (rest : List Char) : Option String :=
  let t := rest.takeWhile (fun c => !(c == '/'))
  if t.isEmpty then none
  else
    match rest.drop t.length with
    | '/' :: body =>
        let b := body.takeWhile notLineTerm
        let w := body.drop b.length
        if !b.isEmpty && w.all isJsWhitespace then some (String.mk b) else none
    | _ => none

/-- The regex of parseWorktreeHEADReadable (src/src/repo.ts line 30):
`ref: `, an optional slash (greedy, with backtracking), `refs/`, then the
tail handled by `headCaptureFrom`. -/
def headRefCapture (text : String) : Option String :=
  let cs := text.toList
  if startsWithChars "ref: ".toList cs then
    let rest := cs.drop 5
    let attempt1 :=
      match rest with
      | '/' :: r2 =>
          if startsWithChars "refs/".toList r2 then headCaptureFrom (r2.drop 5) else none
      | _ => none
    match attempt1 with
    | some r => some r
    | none =>
        if startsWithChars "refs/".toList rest then headCaptureFrom (rest.drop 5) else none
  else none

/-- The text-level part of parseWorktreeHEADReadable (src/src/repo.ts
lines 29-34): the captured ref name if the regex matches, otherwise the
trimmed text. -/
def parseWorktreeHEADText (text : String) : String :=
  match headRefCapture text with
  | some r => r
  | none => jsTrim text

/-- parseWorktreeInfoDir (src/src/repo.ts lines 41-48): the regex
anchors at the start, takes a greedy dot prefix, then `/.git/worktrees/`
and a nonempty greedy run of characters that are neither a slash nor
whitespace, capturing everything up to the end of that run.  Greediness of
the prefix selects the last viable occurrence of the marker. -/
def parseWorktreeInfoDirPath (p : String) : Option String :=
  let cs := p.toList
  let marker := "/.git/worktrees/".toList
  let viable := fun (i : Nat) =>
    (cs.take i).all notLineTerm &&
    startsWithChars marker (cs.drop i) &&
    (match cs.drop (i + marker.length) with
     | c :: _ => !(c == '/') && !(isJsWhitespace c)
     | [] => false)
  match ((List.range (cs.length + 1)).filter viable).getLast? with
  | none => none
  | some i =>
      some (String.mk (cs.take i ++ marker ++
        ((cs.drop (i + marker.length)).takeWhile (fun c => !(c == '/') && !(isJsWhitespace c)))))

/-- Node path.posix.normalize restricted to the shapes produced by the
sources (no trailing-slash inputs): resolves `.` and `..` segments and
collapses repeated slashes. -/
def posixNormalize (p : String) : String :=
  let cs := p.toList
  let absolute := startsWithChars ['/'] cs
  let comps := (splitOnSlash cs).map String.mk
  let stack := comps.foldl
    (fun (acc : List String) c =>
      if c = "" || c = "." then acc
      else if c = ".." then
        match acc with
        | [] => if absolute then [] else [".."]
        | top :: rest => if top = ".." then c :: acc else rest
      else c :: acc) []
  let body := joinWith "/" stack.reverse
  if absolute then "/" ++ body
  else if body = "" then "." else body

/-- Node path.posix.join: concatenate the nonempty parts with slashes and
normalize. -/
def posixJoin (parts : List String) : String :=
  let joined := joinWith "/" (parts.filter (fun s => s ≠ ""))
  if joined = "" then "." else posixNormalize joined

/-- uriJoinPath (src/src/util.ts lines 12-16). -/
def uriJoinPath (u : Uri) (segs : List String) : Uri :=
  { u with path := posixJoin (u.path :: segs) }

/-- SubWorktreeInfo (src/src/repo.ts lines 50-55). -/
structure SubWorktreeInfo where
  dir : Uri
  ref : String
deriving DecidableEq

/-- The JS Map of Repo.otherWorktrees, modelled with its insertion-order
semantics as an association list. -/
abbrev SnapMap := List (String × SubWorktreeInfo)

def mapGet (m : SnapMap) (k : String) : Option SubWorktreeInfo :=
  (m.find? (fun p => p.1 == k)).map (fun p => p.2)

/-- JS Map.set: replace in place when the key is present (insertion order
kept), append otherwise. -/
def mapSet (m : SnapMap) (k : String) (v : SubWorktreeInfo) : SnapMap :=
  if m.any (fun p => p.1 == k) then
    m.map (fun p => if p.1 == k then (k, v) else p)
  else m ++ [(k, v)]

/-- JS Map.delete. -/
def mapDelete (m : SnapMap) (k : String) : SnapMap :=
  m.filter (fun p => !(p.1 == k))

/-- One node of the workspace filesystem: the vscode FileType bitmask
(File = 1, Directory = 2, SymbolicLink = 64), the UTF-8 content when it is
a file, and the directory listing when it is a directory. -/
structure FSNode where
  typeBits : Nat
  content : String
  children : List (String × Nat)
deriving DecidableEq

/-- The workspace filesystem, keyed by `uriToString`. -/
abbrev FS := List (String × FSNode)

def fsFind (fs : FS) (u : Uri) : Option FSNode :=
  (fs.find? (fun p => p.1 == uriToString u)).map (fun p => p.2)

/-- vscode.workspace.fs.stat: throws (error) when the node is missing. -/
def fsStat (fs : FS) (u : Uri) : Except Unit Nat :=
  match fsFind fs u with
  | some n => .ok n.typeBits
  | none => .error ()

/-- readFileUTF8 via vscode.workspace.fs.readFile. -/
def fsReadFile (fs : FS) (u : Uri) : Except Unit String :=
  match fsFind fs u with
  | some n => .ok n.content
  | none => .error ()

/-- vscode.workspace.fs.readDirectory. -/
def fsReadDirectory (fs : FS) (u : Uri) : Except Unit (List (String × Nat)) :=
  match fsFind fs u with
  | some n => .ok n.children
  | none => .error ()

/-- parseGitdirFile (src/src/repo.ts lines 7-21): stat the uri (a missing
node rejects), return undefined unless the File bit is set, then parse the
text; on a match, the result is the same uri with the captured path. -/
def parseGitdirFile (fs : FS) (uri : Uri) : Except Unit (Option Uri) := do
  let bits ← fsStat fs uri
  if bits &&& 1 == 0 then
    return none
  let text ← fsReadFile fs uri
  match parseGitdirText text with
  | none => return none
  | some p => return some { uri with path := p }

/-- parseWorktreeHEADReadable (src/src/repo.ts lines 23-35). -/
def parseWorktreeHEADReadable (fs : FS) (uri : Uri) : Except Unit (Option String) := do
  let bits ← fsStat fs uri
  if bits &&& 1 == 0 then
    return none
  let text ← fsReadFile fs uri
  return some (parseWorktreeHEADText text)

/-- The guard portion of Repo.handleUpdateWorktreeInfo (src/src/repo.ts
lines 72-86): locate the worktree info directory, require the file scheme,
parse its gitdir and HEAD files; `none` on every early return, including a
rejected stat (the handler promise rejects having changed nothing) and a
falsy (empty) ref. -/
def resyncAttempt (fs : FS) (uri : Uri) : Option (String × SubWorktreeInfo) :=
  match parseWorktreeInfoDirPath uri.path with
  | none => none
  | some infoPath =>
    if uri.scheme ≠ "file" then none
    else
      let infoDir : Uri := { uri with path := infoPath }
      match parseGitdirFile fs (uriJoinPath infoDir ["gitdir"]) with
      | .error _ => none
      | .ok none => none
      | .ok (some dir) =>
        match parseWorktreeHEADReadable fs (uriJoinPath infoDir ["HEAD"]) with
        | .error _ => none
        | .ok none => none
        | .ok (some ref) =>
          if ref = "" then none
          else some (uriToString infoDir, { dir := dir, ref := ref })

/-- Repo.handleUpdateWorktreeInfo (src/src/repo.ts lines 72-91): on any
failed guard the map is untouched and no update event fires; on success the
record is stored with Map.set and updateTreeItem fires the change
notification (the Bool). -/
def handleUpdateWorktreeInfo (fs : FS) (uri : Uri) (m : SnapMap) : SnapMap × Bool :=
  match resyncAttempt fs uri with
  | none => (m, false)
  | some (k, v) => (mapSet m k v, true)

/-- The onDidDelete handler registered in the Repo constructor
(src/src/repo.ts lines 104-119): non-file schemes return before the
notification; deleting the whole worktrees container clears the map; any
other uri is deleted from the map when present; in every non-returning
branch updateTreeItem fires. -/
def handleDelete (root : Uri) (e : Uri) (m : SnapMap) : SnapMap × Bool :=
  if e.scheme ≠ "file" then (m, false)
  else if uriToString e = uriToString (uriJoinPath root [".git/worktrees"]) then
    ([], true)
  else
    match mapGet m (uriToString e) with
    | some _ => (mapDelete m (uriToString e), true)
    | none => (m, true)

/-- A filesystem watcher event for the `.git` pattern of the Repo
constructor (src/src/repo.ts lines 97-103). -/
inductive WatchEvent
  | created (uri : Uri)
  | changed (uri : Uri)
  | deleted (uri : Uri)
deriving DecidableEq

/-- The registration in the Repo constructor (src/src/repo.ts lines
100-119) starts one handleUpdateWorktreeInfo invocation per create or
change event; delete events run the delete handler instead.  This counts
the update-handler invocations a list of events starts. -/
def registeredHandlerCalls : List WatchEvent → Nat
  | [] => 0
  | WatchEvent.created _ :: rest => 1 + registeredHandlerCalls rest
  | WatchEvent.changed _ :: rest => 1 + registeredHandlerCalls rest
  | WatchEvent.deleted _ :: rest => registeredHandlerCalls rest

/-- Dispatch of one watcher event, following the three registrations in
the Repo constructor. -/
def processEvent (fs : FS) (root : Uri) (m : SnapMap) : WatchEvent → SnapMap × Bool
  | .created u => handleUpdateWorktreeInfo fs u m
  | .changed u => handleUpdateWorktreeInfo fs u m
  | .deleted u => handleDelete root u m

/-- The initial load of the Repo constructor (src/src/repo.ts lines
122-147): list `.git`, stop with the empty map when no worktrees directory
entry exists, otherwise fold the update handler over the directory
entries of `.git/worktrees`. -/
def initialLoad (fs : FS) (root : Uri) : Except Unit SnapMap :=
  match fsReadDirectory fs (uriJoinPath root [".git"]) with
  | .error e => .error e
  | .ok gitDirContents =>
    if !(gitDirContents.any (fun e => e.1 == "worktrees" && e.2 &&& 2 != 0)) then
      .ok []
    else
      match fsReadDirectory fs (uriJoinPath root [".git/worktrees"]) with
      | .error e => .error e
      | .ok wt =>
        .ok (wt.foldl
          (fun m e =>
            if e.2 &&& 2 == 0 then m
            else (handleUpdateWorktreeInfo fs (uriJoinPath root [".git/worktrees", e.1]) m).1)
          [])

/-- The observable fields of a constructed Repo. -/
structure RepoState where
  rootWorktree : Uri
  otherWorktrees : SnapMap
deriving DecidableEq

/-- The Repo constructor (src/src/repo.ts lines 93-148): it assigns the
fields, registers the watcher and then starts the initial load WITHOUT
awaiting it (`a();`), so the constructor returns at once and any rejection
of the load is unobservable to the caller.  The pending outcome of that
asynchronous load is recorded alongside the returned state. -/
structure ConstructResult where
  state : RepoState
  initialLoadOutcome : Except Unit SnapMap

def Repo.construct (fs : FS) (root : Uri) : ConstructResult :=
  { state := { rootWorktree := root, otherWorktrees := [] }
  , initialLoadOutcome := initialLoad fs root }

/-- trackRepo of the latest revision (src/unnamed/part_000 lines 288-306):
the guard list trackedRepos is compared by `toString(true)` string
equality; a hit returns without constructing, otherwise the uri is pushed
and a new Repo is constructed (the Bool). -/
def trackRepo (tracked : List Uri) (dotgitdir : Uri) : List Uri × Bool :=
  if tracked.any (fun v => uriToString v == uriToString dotgitdir) then (tracked, false)
  else (tracked ++ [dotgitdir], true)

/-- Modelled from the spec: canonicalization of an administrative-directory
path (POSIX path normalization).  The registry claim quantifies over
path-string forms that canonicalize identically; the tracked sources never
canonicalize, which is what the claim is tested against. -/
def canonicalizePath (p : String) : String :=
  posixNormalize p

/-- The fields of the latest Repo revision consulted by findRepo
(src/unnamed/part_001): the dotgitdir uri and the key set of the worktrees
map. -/
structure RepoW where
  dotgitdir : Uri
  worktreeKeys : List String
deriving DecidableEq

/-- findRepo of the latest revision (src/unnamed/part_001 lines 31-39):
repository ids are matched against the dotgitdir string, worktree ids
against the worktrees map keys, and any other id throws. -/
def findRepoLatest (repos : List RepoW) (treeid : String) : Except String (Option RepoW) :=
  if startsWithChars "repository:".toList treeid.toList then
    .ok (repos.find? (fun r => treeid == "repository:" ++ uriToString r.dotgitdir))
  else if startsWithChars "worktree:".toList treeid.toList then
    let worktreeDir := String.mk (treeid.toList.drop 9)
    .ok (repos.find? (fun r => r.worktreeKeys.contains worktreeDir))
  else
    .error ("Unrecognized TreeID: \"" ++ treeid ++ "\"")

/-- An ExecFileException as delivered to the cp.execFile callback. -/
structure ExecError where
  message : String
deriving DecidableEq

/-- The collaborator contract of cp.execFile, at the level of the single
callback invocation it performs: a null error with the captured streams on
success, a non-null error (spawn failure or non-zero exit) with the
captured streams otherwise. -/
inductive SpawnOutcome
  | success (stdout stderr : String)
  | failure (err : ExecError) (stdout stderr : String)
deriving DecidableEq

def SpawnOutcome.stdout : SpawnOutcome → String
  | .success out _ => out
  | .failure _ out _ => out

def SpawnOutcome.stderr : SpawnOutcome → String
  | .success _ err => err
  | .failure _ _ err => err

/-- ExecuteResult (src/src/execute.ts lines 46-50). -/
structure ExecuteResult where
  error : Option ExecError
  stdout : String
  stderr : String
deriving DecidableEq

/-- The fate of a JS promise. -/
inductive PromiseOutcome (α : Type)
  | resolved (value : α)
  | rejected (reason : String)
deriving DecidableEq

/-- execute (src/src/execute.ts lines 52-74): the executor only ever calls
`res` — once, from the execFile callback, with the error/stdout/stderr
triple — in both the error and the success branch (the branches differ
only in logging); no rejection path exists.  The revised version only adds
cleanPath on the inputs handed to the collaborator. -/
def execute (o : SpawnOutcome) : PromiseOutcome ExecuteResult :=
  match o with
  | .success out err => .resolved { error := none, stdout := out, stderr := err }
  | .failure e out err => .resolved { error := some e, stdout := out, stderr := err }

/-! ## Concrete inputs used by individual claims -/

/-- A filesystem in which worktree wt1 already has exactly the metadata
recorded in the snapshot below. -/
def c1fs : FS :=
  [ ("file:///repo/.git/worktrees/wt1/gitdir", ⟨1, "/w1/.git\n", []⟩)
  , ("file:///repo/.git/worktrees/wt1/HEAD", ⟨1, "ref: refs/heads/main\n", []⟩) ]

def c1uri : Uri := ⟨"file", "/repo/.git/worktrees/wt1/HEAD"⟩

def c1map : SnapMap := [("file:///repo/.git/worktrees/wt1", ⟨⟨"file", "/w1"⟩, "main"⟩)]

def c6fs : FS :=
  [ ("file:///repo/.git/worktrees/wt1/gitdir", ⟨1, "/w1new/.git\n", []⟩)
  , ("file:///repo/.git/worktrees/wt1/HEAD", ⟨1, "ref: refs/heads/b1new\n", []⟩)
  , ("file:///repo/.git/worktrees/wt2/gitdir", ⟨1, "/w2new/.git\n", []⟩)
  , ("file:///repo/.git/worktrees/wt2/HEAD", ⟨1, "ref: refs/heads/b2new\n", []⟩) ]

def c6m0 : SnapMap :=
  [ ("file:///repo/.git/worktrees/wt1", ⟨⟨"file", "/w1old"⟩, "b1old"⟩)
  , ("file:///repo/.git/worktrees/wt2", ⟨⟨"file", "/w2old"⟩, "b2old"⟩) ]

def c6root : Uri := ⟨"file", "/repo"⟩

def c6u1 : Uri := ⟨"file", "/repo/.git/worktrees/wt1/HEAD"⟩

def c6u2 : Uri := ⟨"file", "/repo/.git/worktrees/wt2/HEAD"⟩

def c7fs : FS := [("file:///repo/.git", ⟨2, "", [("config", 1)]⟩)]

def c7root : Uri := ⟨"file", "/repo"⟩

def c7map : SnapMap := [("a", ⟨⟨"file", "/b"⟩, "c"⟩)]

def c8node : FSNode := ⟨1, "/w1/.git\n", []⟩

def c8uri : Uri := ⟨"file", "/repo/.git/worktrees/wt1/gitdir"⟩

/-! ## Claims -/

/-- Claim C1, counterexample.  The snapshot already holds exactly the
record that re-parsing the wt1 metadata produces, so the re-synchronization
yields a snapshot deep-equal to the previous one — yet
handleUpdateWorktreeInfo still fires the change notification (the `true`).
The claim says no notification may fire in this situation. -/
theorem c1_fires_despite_deep_equal_snapshot :
    handleUpdateWorktreeInfo c1fs c1uri c1map = (c1map, true) := by
  decide

/-- Claim C1, amended: whether a change notification fires depends only on
the event (and filesystem), never on the previous snapshot — in
particular, a successful update and every processed file-scheme delete
event fire the notification even when the resulting snapshot is deep-equal
to the old one. -/
theorem c1_notification_independent_of_previous_snapshot :
    (∀ (fs : FS) (uri : Uri) (m₁ m₂ : SnapMap),
      (handleUpdateWorktreeInfo fs uri m₁).2 = (handleUpdateWorktreeInfo fs uri m₂).2) ∧
    (∀ (root e : Uri) (m₁ m₂ : SnapMap),
      (handleDelete root e m₁).2 = (handleDelete root e m₂).2) := by
  constructor
  · intro fs uri m₁ m₂
    unfold handleUpdateWorktreeInfo
    cases h : resyncAttempt fs uri with
    | none => rfl
    | some kv => obtain ⟨k, v⟩ := kv; rfl
  · intro root e m₁ m₂
    unfold handleDelete
    by_cases h1 : e.scheme ≠ "file"
    · rw [if_pos h1, if_pos h1]
    · rw [if_neg h1, if_neg h1]
      by_cases h2 : uriToString e = uriToString (uriJoinPath root [".git/worktrees"])
      · rw [if_pos h2, if_pos h2]
      · rw [if_neg h2, if_neg h2]
        cases mapGet m₁ (uriToString e) <;> cases mapGet m₂ (uriToString e) <;> rfl

/-- Claim C2: whenever a re-synchronization attempt fails (any failed
guard of handleUpdateWorktreeInfo: unmatched info directory, wrong scheme,
missing or unparsable gitdir metadata, missing or empty HEAD), the snapshot
mapping after the attempt equals the mapping before it and no change
notification fires. -/
theorem c2_failed_resync_preserves_snapshot_and_fires_nothing :
    ∀ (fs : FS) (uri : Uri) (m : SnapMap),
      resyncAttempt fs uri = none →
      handleUpdateWorktreeInfo fs uri m = (m, false) := by
  intro fs uri m h
  simp [handleUpdateWorktreeInfo, h]

/-- Witness for C2: on an empty filesystem the gitdir stat rejects, the
attempt fails, and the snapshot and notification are untouched. -/
theorem c2_failed_resync_witness :
    handleUpdateWorktreeInfo [] ⟨"file", "/repo/.git/worktrees/wt1/HEAD"⟩
        [("k", ⟨⟨"file", "/x"⟩, "r"⟩)] =
      ([("k", ⟨⟨"file", "/x"⟩, "r"⟩)], false) :=
  c2_failed_resync_preserves_snapshot_and_fires_nothing _ _ _ (by decide)

/-- Claim C3, counterexample.  Two triggering change events arriving while
one update handler is already in flight give three handler invocations in
total (the watcher registration starts one handler per event, with no
coalescing), contradicting the claimed bound of at most two. -/
theorem c3_burst_of_two_events_gives_three_invocations :
    ¬ (1 + registeredHandlerCalls
        [ WatchEvent.changed ⟨"file", "/repo/.git/worktrees/wt1/HEAD"⟩
        , WatchEvent.changed ⟨"file", "/repo/.git/worktrees/wt1/gitdir"⟩ ] ≤ 2) := by
  decide

/-- Claim C3, amended: every triggering (create or change) event starts
its own update-handler invocation and nothing coalesces them, so a burst
of N triggering events arriving while one handler is in flight yields
exactly N + 1 invocations in total. -/
theorem c3_each_event_starts_own_invocation :
    ∀ (n : Nat) (u : Uri),
      1 + registeredHandlerCalls (List.replicate n (WatchEvent.changed u)) = n + 1 := by
  intro n u
  induction n with
  | zero => rfl
  | succ k ih =>
      simp only [List.replicate_succ, registeredHandlerCalls] at *
      omega

/-- Claim C4, counterexample.  The paths `/repo/.git` and `/repo/./.git`
canonicalize identically, yet tracking them in turn constructs two
watchers, because trackRepo deduplicates by exact uri-string equality and
never canonicalizes. -/
theorem c4_equal_canonicalization_still_tracks_twice :
    canonicalizePath "/repo/./.git" = canonicalizePath "/repo/.git" ∧
    trackRepo [] ⟨"file", "/repo/.git"⟩ = ([⟨"file", "/repo/.git"⟩], true) ∧
    trackRepo [⟨"file", "/repo/.git"⟩] ⟨"file", "/repo/./.git"⟩ =
      ([⟨"file", "/repo/.git"⟩, ⟨"file", "/repo/./.git"⟩], true) := by
  refine ⟨by decide, by decide, by decide⟩

/-- Claim C4, amended: deduplication is by exact uri-string equality, not
canonical-path equality — a second track call whose argument is the SAME
uri string performs no new construction, while string forms that merely
canonicalize identically are each tracked (see the counterexample). -/
theorem c4_track_idempotent_on_equal_uri_strings :
    ∀ (tracked : List Uri) (u : Uri),
      trackRepo (trackRepo tracked u).1 u = ((trackRepo tracked u).1, false) := by
  intro tracked u
  by_cases h : tracked.any (fun v => uriToString v == uriToString u) = true
  · simp [trackRepo, h]
  · simp [trackRepo, h, List.any_append]

/-- Claim C5, counterexample.  On a filesystem where even the `.git`
listing fails, the initial load rejects — yet construction still succeeds,
returning a watcher whose snapshot is empty: construction never awaits the
initial re-synchronization and never propagates its failure. -/
theorem c5_construction_succeeds_though_initial_resync_fails :
    Repo.construct [] ⟨"file", "/repo"⟩ =
      ⟨⟨⟨"file", "/repo"⟩, []⟩, Except.error ()⟩ := by
  rfl

/-- Claim C5, amended: construction always succeeds immediately with an
empty snapshot; the constructed state is independent of the filesystem —
in particular independent of whether the asynchronously started initial
load succeeds or fails. -/
theorem c5_construction_total_and_independent_of_initial_load :
    ∀ (fs : FS) (root : Uri),
      (Repo.construct fs root).state = ⟨root, []⟩ ∧
      ∀ (fs₂ : FS), (Repo.construct fs root).state = (Repo.construct fs₂ root).state := by
  intro fs root
  exact ⟨rfl, fun _ => rfl⟩

/-- Claim C6, counterexample.  A change to the metadata of two worktrees
is applied one record at a time: after the first event is processed the
observable map holds the new record for wt1 together with the old record
for wt2 — a state that is neither the complete old mapping nor the
complete new mapping, so a reader at that instant observes a mixture. -/
theorem c6_intermediate_state_mixes_old_and_new_records :
    (processEvent c6fs c6root c6m0 (WatchEvent.changed c6u1)).1 ≠ c6m0 ∧
    (processEvent c6fs c6root c6m0 (WatchEvent.changed c6u1)).1 ≠
      (processEvent c6fs c6root
        (processEvent c6fs c6root c6m0 (WatchEvent.changed c6u1)).1
        (WatchEvent.changed c6u2)).1 := by
  decide

/-- Claim C6, amended: the shared map is updated in place one record per
event — an update event leaves it unchanged or sets a single key, and a
delete event leaves it unchanged, clears it (container delete), or deletes
a single key — so multi-record changes pass through observable
intermediate states. -/
theorem c6_each_event_touches_at_most_one_record :
    (∀ (fs : FS) (uri : Uri) (m : SnapMap),
      handleUpdateWorktreeInfo fs uri m = (m, false) ∨
      ∃ k v, handleUpdateWorktreeInfo fs uri m = (mapSet m k v, true)) ∧
    (∀ (root e : Uri) (m : SnapMap),
      handleDelete root e m = (m, false) ∨
      handleDelete root e m = ([], true) ∨
      handleDelete root e m = (m, true) ∨
      ∃ k, handleDelete root e m = (mapDelete m k, true)) := by
  constructor
  · intro fs uri m
    unfold handleUpdateWorktreeInfo
    cases h : resyncAttempt fs uri with
    | none => exact Or.inl rfl
    | some kv => obtain ⟨k, v⟩ := kv; exact Or.inr ⟨k, v, rfl⟩
  · intro root e m
    unfold handleDelete
    by_cases h1 : e.scheme ≠ "file"
    · rw [if_pos h1]; exact Or.inl rfl
    · rw [if_neg h1]
      by_cases h2 : uriToString e = uriToString (uriJoinPath root [".git/worktrees"])
      · rw [if_pos h2]; exact Or.inr (Or.inl rfl)
      · rw [if_neg h2]
        cases mapGet m (uriToString e) with
        | none => exact Or.inr (Or.inr (Or.inl rfl))
        | some _ => exact Or.inr (Or.inr (Or.inr ⟨uriToString e, rfl⟩))

/-- Claim C7: when the delete event for the whole `.git/worktrees`
container is processed, the watcher ends in the same observable state a
full re-synchronization (the constructor initial load) would produce on
the post-delete filesystem: the linked-worktree map is empty, while the
primary worktree (the rootWorktree field, untouched by both operations)
remains. -/
theorem c7_container_delete_matches_full_resync :
    ∀ (fs : FS) (root : Uri) (m : SnapMap) (entries : List (String × Nat)),
      root.scheme = "file" →
      fsReadDirectory fs (uriJoinPath root [".git"]) = .ok entries →
      entries.all (fun e => !(e.1 == "worktrees" && e.2 &&& 2 != 0)) = true →
      (handleDelete root (uriJoinPath root [".git/worktrees"]) m).1 = [] ∧
      initialLoad fs root = .ok [] := by
  intro fs root m entries hscheme hread hall
  constructor
  · unfold handleDelete
    have hs : ¬ ((uriJoinPath root [".git/worktrees"]).scheme ≠ "file") := by
      simp [uriJoinPath, hscheme]
    rw [if_neg hs, if_pos rfl]
  · have hany : entries.any (fun e => e.1 == "worktrees" && e.2 &&& 2 != 0) = false := by
      cases h : entries.any (fun e => e.1 == "worktrees" && e.2 &&& 2 != 0) with
      | false => rfl
      | true =>
          obtain ⟨x, hx, hpx⟩ := List.any_eq_true.mp h
          have := List.all_eq_true.mp hall x hx
          simp [hpx] at this
    unfold initialLoad
    rw [hread]
    simp [hany]

/-- Witness for C7: a concrete post-delete filesystem whose `.git`
directory holds no worktrees entry. -/
theorem c7_container_delete_witness :
    (handleDelete c7root (uriJoinPath c7root [".git/worktrees"]) c7map).1 = [] ∧
    initialLoad c7fs c7root = .ok [] :=
  c7_container_delete_matches_full_resync c7fs c7root c7map [("config", 1)]
    rfl rfl (by decide)

/-- Claim C8: parsing is pure — the result of parseGitdirFile and of
parseWorktreeHEADReadable depends only on the filesystem node at the
parsed uri (its stat bits and raw text), not on any other state, so
identical input always yields a deep-equal result on every invocation. -/
theorem c8_parsers_depend_only_on_the_parsed_text :
    ∀ (fs₁ fs₂ : FS) (u : Uri),
      fsFind fs₁ u = fsFind fs₂ u →
      parseGitdirFile fs₁ u = parseGitdirFile fs₂ u ∧
      parseWorktreeHEADReadable fs₁ u = parseWorktreeHEADReadable fs₂ u := by
  intro fs₁ fs₂ u h
  constructor
  · simp only [parseGitdirFile, fsStat, fsReadFile, h]
  · simp only [parseWorktreeHEADReadable, fsStat, fsReadFile, h]

/-- Witness for C8: two filesystems differing away from the parsed node
give identical parses of it. -/
theorem c8_parsers_witness :
    parseGitdirFile [("other", ⟨1, "x", []⟩), ("file:///repo/.git/worktrees/wt1/gitdir", c8node)]
        c8uri =
      parseGitdirFile [("file:///repo/.git/worktrees/wt1/gitdir", c8node)] c8uri ∧
    parseWorktreeHEADReadable
        [("other", ⟨1, "x", []⟩), ("file:///repo/.git/worktrees/wt1/gitdir", c8node)] c8uri =
      parseWorktreeHEADReadable [("file:///repo/.git/worktrees/wt1/gitdir", c8node)] c8uri :=
  c8_parsers_depend_only_on_the_parsed_text _ _ _ (by decide)

/-- Claim C9, counterexample.  A lookup whose identity carries neither
recognized tag — reachable in the extension, e.g. a command invoked from
the palette passes an undefined tree item straight to findRepo — throws an
Unrecognized TreeID error instead of returning a not-found result. -/
theorem c9_unrecognized_identity_throws :
    findRepoLatest [] "garbage" = .error "Unrecognized TreeID: \"garbage\"" := by
  rfl

/-- Claim C9, amended: lookups whose identity bears a recognized
`repository:` or `worktree:` tag never throw, and a tagged worktree lookup
owned by no tracked repository returns a not-found result; only identities
with neither tag throw (see the counterexample). -/
theorem c9_tagged_lookups_total :
    (∀ (repos : List RepoW) (tid : String),
      startsWithChars "repository:".toList tid.toList = true ∨
      startsWithChars "worktree:".toList tid.toList = true →
      ∃ o, findRepoLatest repos tid = .ok o) ∧
    (∀ (repos : List RepoW) (tid : String),
      startsWithChars "repository:".toList tid.toList = false →
      startsWithChars "worktree:".toList tid.toList = true →
      (∀ r ∈ repos, r.worktreeKeys.contains (String.mk (tid.toList.drop 9)) = false) →
      findRepoLatest repos tid = .ok none) := by
  constructor
  · intro repos tid h
    unfold findRepoLatest
    cases h1 : startsWithChars "repository:".toList tid.toList with
    | true =>
        exact ⟨_, rfl⟩
    | false =>
        have h2 : startsWithChars "worktree:".toList tid.toList = true := by
          rcases h with h | h
          · rw [h1] at h; cases h
          · exact h
        rw [h2]
        exact ⟨_, rfl⟩
  · intro repos tid h1 h2 hnone
    unfold findRepoLatest
    rw [h1, h2]
    show Except.ok (repos.find? (fun r =>
        r.worktreeKeys.contains (String.mk (tid.toList.drop 9)))) = Except.ok none
    have hfind : repos.find? (fun r =>
        r.worktreeKeys.contains (String.mk (tid.toList.drop 9))) = none := by
      apply List.find?_eq_none.mpr
      intro r hr hc
      have hc2 : r.worktreeKeys.contains (String.mk (tid.toList.drop 9)) = true := hc
      rw [hnone r hr] at hc2
      cases hc2
    rw [hfind]

/-- Witness for C9: a tagged worktree lookup against an empty registry
resolves to a not-found result without throwing. -/
theorem c9_tagged_lookup_witness :
    (∃ o, findRepoLatest [] "worktree:/x" = Except.ok o) ∧
    findRepoLatest [] "worktree:/x" = Except.ok none :=
  ⟨c9_tagged_lookups_total.1 [] "worktree:/x" (Or.inr (by decide)),
   c9_tagged_lookups_total.2 [] "worktree:/x" (by decide) (by decide)
     (by intro r hr; cases hr)⟩

/-- Claim C10: for every spawn outcome the promise returned by execute
resolves — the executor has no rejection path — and the resolved record
carries the captured stdout and stderr strings, with a null error exactly
when the external command succeeded. -/
theorem c10_execute_always_resolves :
    ∀ (o : SpawnOutcome), ∃ (r : ExecuteResult),
      execute o = .resolved r ∧
      (r.error = none ↔ ∃ out err, o = SpawnOutcome.success out err) ∧
      r.stdout = o.stdout ∧ r.stderr = o.stderr := by
  intro o
  cases o with
  | success out err =>
      exact ⟨⟨none, out, err⟩, rfl, by simp, rfl, rfl⟩
  | failure e out err =>
      refine ⟨⟨some e, out, err⟩, rfl, ?_, rfl, rfl⟩
      simp
